import Mathlib

/-!
Verification of the DMX light controller (`dmx_controller_gui.py`) against its
natural-language specification.  The Python source is shallowly embedded:

* the 513-byte DMX universe (`bytearray([0] * 513)`) becomes a function
  `Nat → Nat`, written only through `set_channel`;
* the two channel profiles `CHANNEL_MAPS` become a total function on an
  inductive `LightType`;
* the `LightEffect` class becomes a structure holding the universe, the
  fixture configuration list, the brightness and the frame counter, and each
  effect method becomes a function `LightEffect → LightEffect` folding
  `set_rgbw` over the fixture indices exactly as the Python `for` loops do;
* Python `int` arithmetic becomes `Int`/`Nat`; the floating-point arithmetic
  inside `hsv_to_rgb` is embedded over `ℚ` (exact at every input the claims
  evaluate it on), with `int(...)` truncation modelled by `pyInt`;
* effects that draw from `random` or use `math.sin` (dance, fire, ocean wave,
  party, lightning) are over-approximated, where reachability is needed, by a
  step that writes each fixture through `set_rgbw` with arbitrary values —
  sound for the invariants proved here, which only depend on which channels
  `set_rgbw` can touch.
-/

namespace DMX

/-- Clamping used by `DMXController.set_channel`: `max(0, min(255, value))`. -/
def clamp255 (value : Int) : Int := max 0 (min 255 value)

/-- Embedding of `DMXController.set_channel`: writes the clamped value at
index `channel` of the universe when `1 <= channel <= 512`, otherwise leaves
the universe untouched. -/
def set_channel (data : Nat → Nat) (channel : Int) (value : Int) : Nat → Nat :=
  fun c =>
    if 1 ≤ channel ∧ channel ≤ 512 then
      if c = channel.toNat then (clamp255 value).toNat else data c
    else data c

/-- The two light types of `CHANNEL_MAPS` (the dictionary's only keys). -/
inductive LightType where
  | A : LightType
  | B : LightType
deriving DecidableEq

/-- The logical channel roles appearing in `CHANNEL_MAPS`. -/
inductive Role where
  | dimmer : Role
  | red : Role
  | green : Role
  | blue : Role
  | white : Role
  | strobe : Role
  | mode : Role
  | speed : Role
deriving DecidableEq

/-- Embedding of the `CHANNEL_MAPS` dictionary: offset (1..8) of each role
inside a fixture's 8-channel block, per light type. -/
def CHANNEL_MAPS : LightType → Role → Nat
  | .A, .dimmer => 1
  | .A, .red => 2
  | .A, .green => 3
  | .A, .blue => 4
  | .A, .white => 5
  | .A, .strobe => 6
  | .A, .mode => 7
  | .A, .speed => 8
  | .B, .dimmer => 1
  | .B, .red => 5
  | .B, .green => 6
  | .B, .blue => 7
  | .B, .white => 8
  | .B, .strobe => 2
  | .B, .mode => 3
  | .B, .speed => 4

/-- Embedding of `LightEffect.get_channel_map`.  The Python code does
`CHANNEL_MAPS.get(light_type, CHANNEL_MAPS['B'])`; since `LightType` has
exactly the dictionary's keys, the default branch is unreachable. -/
def get_channel_map (light_type : LightType) : Role → Nat :=
  CHANNEL_MAPS light_type

/-- A fixture configuration: one entry of `self.light_configs`, holding the
light type (A or B) and the start address of its 8-channel block. -/
structure LightConfig where
  type : LightType
  address : Nat
deriving DecidableEq

/-- Absolute DMX channel of a role for a fixture configuration:
`start_channel + ch_map[role] - 1` as computed inside `set_rgbw`. -/
def role_channel (cfg : LightConfig) (r : Role) : Nat :=
  cfg.address + get_channel_map cfg.type r - 1

/-- Embedding of `LightEffect.set_rgbw` at the level of the raw universe:
writes dimmer, red, green, blue and white (in this order, as the source does)
for the fixture at `light_index`; an out-of-range index leaves the universe
unchanged (every call site keeps the index below `len(light_configs)`). -/
def set_rgbw_data (configs : List LightConfig) (brightness : Int) (data : Nat → Nat)
    (light_index : Nat) (r g b w : Int) (dimmer_value : Option Int) : Nat → Nat :=
  match configs[light_index]? with
  | none => data
  | some config =>
    let dimmer := dimmer_value.getD brightness
    let d1 := set_channel data (role_channel config .dimmer : Int) dimmer
    let d2 := set_channel d1 (role_channel config .red : Int) r
    let d3 := set_channel d2 (role_channel config .green : Int) g
    let d4 := set_channel d3 (role_channel config .blue : Int) b
    set_channel d4 (role_channel config .white : Int) w

/-- The behaviour of Python's `int(...)` on a real number: truncation toward
zero (inside `hsv_to_rgb` every argument is non-negative, so this is the
floor). -/
def pyInt (q : ℚ) : Int := if q < 0 then -⌊-q⌋ else ⌊q⌋

/-- Python's `%` on (positive-divisor) floats: `a - b * floor(a / b)`. -/
def qmod (a b : ℚ) : ℚ := a - b * (⌊a / b⌋ : ℚ)

/-- Embedding of `LightEffect.hsv_to_rgb` over exact rationals: hue wrapped
mod 360, saturation/value clamped to `[0,1]`, standard sector formula, scaled
to `0..255` through `int(...)`. -/
def hsv_to_rgb (h0 : Int) (s0 v0 : ℚ) : Int × Int × Int :=
  let h := h0 % 360
  let s := max 0 (min 1 s0)
  let v := max 0 (min 1 v0)
  let c := v * s
  let x := c * (1 - |qmod ((h : ℚ) / 60) 2 - 1|)
  let m := v - c
  let rgb : ℚ × ℚ × ℚ :=
    if 0 ≤ h ∧ h < 60 then (c, x, 0)
    else if 60 ≤ h ∧ h < 120 then (x, c, 0)
    else if 120 ≤ h ∧ h < 180 then (0, c, x)
    else if 180 ≤ h ∧ h < 240 then (0, x, c)
    else if 240 ≤ h ∧ h < 300 then (x, 0, c)
    else (c, 0, x)
  (pyInt ((rgb.1 + m) * 255), pyInt ((rgb.2.1 + m) * 255), pyInt ((rgb.2.2 + m) * 255))

/-- Embedding of `DMXControllerGUI._get_start_address`:
`index * CHANNELS_PER_LIGHT + 1` with `CHANNELS_PER_LIGHT = 8`. -/
def get_start_address (index : Nat) : Nat := index * 8 + 1

/-- Models the re-addressing loop at the end of `_update_light_configs`
(`for i in range(new_count): configs[i]['address'] = _get_start_address(i)`),
as a recursion carrying the current index. -/
def readdress : Nat → List LightConfig → List LightConfig
  | _, [] => []
  | i, cfg :: rest => { cfg with address := get_start_address i } :: readdress (i + 1) rest

/-- Embedding of `DMXControllerGUI._update_light_configs`: grow with type-B
fixtures, or truncate, then recompute every start address. -/
def update_light_configs (configs : List LightConfig) (new_count : Nat) : List LightConfig :=
  let current_count := configs.length
  let resized :=
    if new_count > current_count then
      configs ++ (List.range' current_count (new_count - current_count)).map
        (fun i => { type := LightType.B, address := get_start_address i })
    else if new_count < current_count then
      configs.take new_count
    else
      configs
  readdress 0 resized

/-- The mutable state of the `LightEffect` object together with the universe
buffer of the `DMXController` it writes through. -/
structure LightEffect where
  dmx_data : Nat → Nat
  light_configs : List LightConfig
  brightness : Int
  time_counter : Nat

/-- The `set_rgbw` method acting on the whole effect state. -/
def LightEffect.set_rgbw (s : LightEffect) (light_index : Nat) (r g b w : Int)
    (dimmer_value : Option Int) : LightEffect :=
  { s with dmx_data :=
      set_rgbw_data s.light_configs s.brightness s.dmx_data light_index r g b w dimmer_value }

/-- Embedding of `LightEffect.turn_off_all`: sets r=g=b=w=0 with dimmer 0 for
every configured fixture. -/
def LightEffect.turn_off_all (s : LightEffect) : LightEffect :=
  (List.range s.light_configs.length).foldl
    (fun acc i => acc.set_rgbw i 0 0 0 0 (some 0)) s

/-- Embedding of `LightEffect.white_light`: w = brightness, rgb = 0, dimmer
defaulted to brightness. -/
def LightEffect.white_light (s : LightEffect) : LightEffect :=
  (List.range s.light_configs.length).foldl
    (fun acc i => acc.set_rgbw i 0 0 0 acc.brightness none) s

/-- The per-fixture phase computed inside `LightEffect.color_chase`:
`(self.time_counter + i * (360 // len(self.light_configs))) % 360`. -/
def chase_phase (t i k : Nat) : Nat := (t + i * (360 / k)) % 360

/-- Embedding of `LightEffect.color_chase`: per-fixture hue from
`chase_phase`, full saturation, value `brightness / 255`, white 0, then the
counter advances by 2. -/
def LightEffect.color_chase (s : LightEffect) : LightEffect :=
  let k := s.light_configs.length
  let s' := (List.range k).foldl
    (fun acc i =>
      let rgb := hsv_to_rgb (chase_phase acc.time_counter i k : Int) 1 ((acc.brightness : ℚ) / 255)
      acc.set_rgbw i rgb.1 rgb.2.1 rgb.2.2 0 none) s
  { s' with time_counter := s'.time_counter + 2 }

/-- The strobe intensity computed inside `LightEffect.strobe_effect`:
`255 if int(t / 2) % 2 == 0 else 0`. -/
def strobe_intensity (t : Nat) : Int := if (t / 2) % 2 = 0 then 255 else 0

/-- Embedding of `LightEffect.strobe_effect`: every fixture gets rgb = 0 and
w = dimmer = intensity, then the counter advances by 1. -/
def LightEffect.strobe_effect (s : LightEffect) : LightEffect :=
  let intensity := strobe_intensity s.time_counter
  let s' := (List.range s.light_configs.length).foldl
    (fun acc i => acc.set_rgbw i 0 0 0 intensity (some intensity)) s
  { s' with time_counter := s'.time_counter + 1 }

/-- Embedding of `LightEffect.rainbow_fade`: base hue `2t mod 360`, saturation
0.8, value `brightness / 255`, then the counter advances by 1. -/
def LightEffect.rainbow_fade (s : LightEffect) : LightEffect :=
  let base_hue := (s.time_counter * 2) % 360
  let k := s.light_configs.length
  let s' := (List.range k).foldl
    (fun acc i =>
      let hue := (base_hue + i * (360 / k)) % 360
      let rgb := hsv_to_rgb (hue : Int) (0.8 : ℚ) ((acc.brightness : ℚ) / 255)
      acc.set_rgbw i rgb.1 rgb.2.1 rgb.2.2 0 none) s
  { s' with time_counter := s'.time_counter + 1 }

/-- Over-approximation of the remaining render bodies (dance, fire, ocean
wave, party's write tick, lightning, and the manual-colour handler): each of
them is a loop writing fixture `i` through `set_rgbw` with values drawn from
`random` or computed with floating-point `math.sin`; the value oracle `vals`
supplies, per fixture, the `(r, g, b, w, dimmer_value)` arguments. -/
def LightEffect.render_vals (s : LightEffect)
    (vals : Nat → Int × Int × Int × Int × Option Int) : LightEffect :=
  (List.range s.light_configs.length).foldl
    (fun acc i =>
      let v := vals i
      acc.set_rgbw i v.1 v.2.1 v.2.2.1 v.2.2.2.1 v.2.2.2.2) s

/-- Embedding of the menu handler `DMXControllerGUI._set_light_count`: update
the configuration list to the new count, then `turn_off_all` (which the
handler invokes to reset the lights). -/
def set_light_count (s : LightEffect) (new_count : Nat) : LightEffect :=
  LightEffect.turn_off_all
    { s with light_configs := update_light_configs s.light_configs new_count }

/-- Embedding of the `apply_changes` closure of
`DMXControllerGUI._set_light_type_dialog`: overwrite every fixture's type from
the dialog's selections, then `turn_off_all`. -/
def set_light_types (s : LightEffect) (choice : Nat → LightType) : LightEffect :=
  let new_configs := List.zipWith (fun i cfg => { cfg with type := choice i })
    (List.range s.light_configs.length) s.light_configs
  LightEffect.turn_off_all { s with light_configs := new_configs }

/-- The state of the `LightEffect` object right after `DMXControllerGUI`
initialisation: three type-B fixtures at addresses 1, 9, 17, brightness 128,
counter 0, all 513 universe bytes zero. -/
def initState : LightEffect :=
  { dmx_data := fun _ => 0
    light_configs := update_light_configs [] 3
    brightness := 128
    time_counter := 0 }

/-- A snapshot of the 513-byte universe, as the list of its bytes. -/
def snapshot (data : Nat → Nat) : List Nat := (List.range 513).map data

/-- One observable step of the system, as driven by the animation loop and the
GUI handlers.  Constructors cover: the brightness slider, the deterministic
renders, the value-oracle over-approximation of the random/trigonometric
renders, the mode buttons (which reset the counter), the fixture-count and
type dialogs, and (conservatively) any direct `set_channel` write. -/
inductive EffectStep : LightEffect → LightEffect → Prop
  | set_brightness (s : LightEffect) (b : Int) :
      0 ≤ b → b ≤ 255 → EffectStep s { s with brightness := b }
  | turn_off (s : LightEffect) : EffectStep s s.turn_off_all
  | white (s : LightEffect) : EffectStep s s.white_light
  | chase (s : LightEffect) : EffectStep s s.color_chase
  | strobe (s : LightEffect) : EffectStep s s.strobe_effect
  | rainbow (s : LightEffect) : EffectStep s s.rainbow_fade
  | rand_render (s : LightEffect) (vals : Nat → Int × Int × Int × Int × Option Int) (dt : Nat) :
      EffectStep s { s.render_vals vals with time_counter := (s.render_vals vals).time_counter + dt }
  | reset_counter (s : LightEffect) : EffectStep s { s with time_counter := 0 }
  | count_dialog (s : LightEffect) (n : Nat) : EffectStep s (set_light_count s n)
  | type_dialog (s : LightEffect) (choice : Nat → LightType) :
      EffectStep s (set_light_types s choice)
  | raw_write (s : LightEffect) (ch v : Int) :
      EffectStep s { s with dmx_data := set_channel s.dmx_data ch v }

/-- Reachability of a `LightEffect` state from the program's initial state. -/
def Reach (s : LightEffect) : Prop := Relation.ReflTransGen EffectStep initState s

/-- The steps that keep the fixture registry fixed: renders, brightness and
mode changes, but no fixture-count or type dialog and no raw channel write. -/
inductive RenderStep : LightEffect → LightEffect → Prop
  | set_brightness (s : LightEffect) (b : Int) :
      0 ≤ b → b ≤ 255 → RenderStep s { s with brightness := b }
  | turn_off (s : LightEffect) : RenderStep s s.turn_off_all
  | white (s : LightEffect) : RenderStep s s.white_light
  | chase (s : LightEffect) : RenderStep s s.color_chase
  | strobe (s : LightEffect) : RenderStep s s.strobe_effect
  | rainbow (s : LightEffect) : RenderStep s s.rainbow_fade
  | rand_render (s : LightEffect) (vals : Nat → Int × Int × Int × Int × Option Int) (dt : Nat) :
      RenderStep s { s.render_vals vals with time_counter := (s.render_vals vals).time_counter + dt }
  | reset_counter (s : LightEffect) : RenderStep s { s with time_counter := 0 }

/-- Reachability under a fixed fixture registry. -/
def ReachFixed (s : LightEffect) : Prop := Relation.ReflTransGen RenderStep initState s

/-- The connection state of the `DMXController`: the `connected` flag and the
serial object (`none` when `self.ser is None`, otherwise its `is_open`). -/
structure DMXController where
  connected : Bool
  ser : Option Bool
deriving DecidableEq

/-- The serial write performed inside `send_data`'s `try` block; a transmit
fault is the `write` call raising, modelled as `Except.error`. -/
def write_packet (fault : Bool) : Except Unit Unit :=
  if fault then Except.error () else Except.ok ()

/-- Embedding of `DMXController.send_data`: when connected with an open port,
attempt the write; the `except` clause catches any fault, clears `connected`
and closes the port.  Totality of this function is the embedded form of the
fault never escaping the call. -/
def DMXController.send_data (dmx : DMXController) (fault : Bool) : DMXController :=
  match dmx.ser with
  | none => dmx
  | some is_open =>
    if dmx.connected && is_open then
      match write_packet fault with
      | Except.ok _ => dmx
      | Except.error _ => { dmx with connected := false, ser := some false }
    else dmx

/-- The `current_mode` strings of the GUI. -/
inductive Mode where
  | off : Mode
  | white : Mode
  | chase : Mode
  | strobe : Mode
  | dance : Mode
  | rainbow : Mode
  | fire : Mode
  | ocean : Mode
  | party : Mode
  | lightning : Mode
  | manual : Mode
deriving DecidableEq

/-- The state touched by `DMXControllerGUI.animation_loop`. -/
structure DMXControllerGUI where
  effect : LightEffect
  dmx : DMXController
  current_mode : Mode
  is_running : Bool

/-- One iteration of `animation_loop`: dispatch the active mode's render (the
random/trigonometric ones through the `vals` oracle, with their exact counter
advances; party renders only when `t % 5 == 0`), then `send_data`. -/
def animation_tick (g : DMXControllerGUI)
    (vals : Nat → Int × Int × Int × Int × Option Int) (fault : Bool) : DMXControllerGUI :=
  let eff :=
    match g.current_mode with
    | .manual => g.effect
    | .off => g.effect.turn_off_all
    | .white => g.effect.white_light
    | .chase => g.effect.color_chase
    | .strobe => g.effect.strobe_effect
    | .dance =>
        { g.effect.render_vals vals with
          time_counter := (g.effect.render_vals vals).time_counter + 3 }
    | .rainbow => g.effect.rainbow_fade
    | .fire => g.effect.render_vals vals
    | .ocean =>
        { g.effect.render_vals vals with
          time_counter := (g.effect.render_vals vals).time_counter + 2 }
    | .party =>
        let e := if g.effect.time_counter % 5 = 0 then g.effect.render_vals vals else g.effect
        { e with time_counter := e.time_counter + 1 }
    | .lightning => g.effect.render_vals vals
  { g with effect := eff, dmx := g.dmx.send_data fault }

/-- The hue formula as the specification words it for Color Chase:
`(t + i * 360 / k) mod 360` with exact division.  Modelled from the spec (the
source computes `i * (360 // k)` with integer floor division instead). -/
def spec_chase_hue (t i k : Nat) : ℚ :=
  qmod ((t : ℚ) + (i : ℚ) * 360 / (k : ℚ)) 360

/-- The standard sector-based HSV to RGB conversion applied to the exact
(non-integer) hue of `spec_chase_hue`.  Modelled from the spec: identical to
`hsv_to_rgb` but with a rational hue, used only to exhibit how the spec's
formula diverges from the source. -/
def spec_hsv_to_rgb (h0 : ℚ) (s0 v0 : ℚ) : Int × Int × Int :=
  let h := qmod h0 360
  let s := max 0 (min 1 s0)
  let v := max 0 (min 1 v0)
  let c := v * s
  let x := c * (1 - |qmod (h / 60) 2 - 1|)
  let m := v - c
  let rgb : ℚ × ℚ × ℚ :=
    if 0 ≤ h ∧ h < 60 then (c, x, 0)
    else if 60 ≤ h ∧ h < 120 then (x, c, 0)
    else if 120 ≤ h ∧ h < 180 then (0, c, x)
    else if 180 ≤ h ∧ h < 240 then (0, x, c)
    else if 240 ≤ h ∧ h < 300 then (x, 0, c)
    else (c, 0, x)
  (pyInt ((rgb.1 + m) * 255), pyInt ((rgb.2.1 + m) * 255), pyInt ((rgb.2.2 + m) * 255))

/-- The five roles written by `set_rgbw`. -/
def written_roles : List Role := [.dimmer, .red, .green, .blue, .white]

/-- The channels of a fixture that `set_rgbw` targets. -/
def written_channels (cfg : LightConfig) : List Nat :=
  written_roles.map (role_channel cfg)

/-- The channels of the universe that any `set_rgbw` call under the given
configuration list can modify. -/
def InWriteSet (configs : List LightConfig) (c : Nat) : Prop :=
  ∃ cfg ∈ configs, c ∈ written_channels cfg ∧ 1 ≤ c ∧ c ≤ 512

/-- Every fixture sits at the default layout address `8 * index + 1`. -/
def StdLayout (configs : List LightConfig) : Prop :=
  ∀ j cfg, configs[j]? = some cfg → cfg.address = 8 * j + 1

/-- A per-fixture loop body that is some `set_rgbw` call (every render loop in
the source has this shape). -/
def RgbwStep (F : LightEffect → Nat → LightEffect) : Prop :=
  ∀ acc j, ∃ r g b w dv, F acc j = acc.set_rgbw j r g b w dv

/-- Invariant carried along registry-fixed runs: the registry is the initial
one and every channel outside the fixtures' writable role channels is 0. -/
def FixedInv (s : LightEffect) : Prop :=
  s.light_configs = initState.light_configs ∧
    ∀ c, ¬ InWriteSet s.light_configs c → s.dmx_data c = 0

/-- The state after rendering White Light once (brightness 128 lights fixture
1's dimmer channel 9 and white channel 16) and then shrinking the fixture
count to 1 through the count dialog. -/
def s2cex : LightEffect := set_light_count initState.white_light 1

/-- The initial three-fixture state with the brightness slider at 255. -/
def chaseState : LightEffect := { initState with brightness := 255 }

/-- A seven-fixture state with brightness 255, where `360 // 7 = 51` makes the
floor-division hue visible. -/
def chaseState7 : LightEffect :=
  { initState with
    light_configs := update_light_configs initState.light_configs 7,
    brightness := 255 }

/-- A concrete GUI state used to instantiate the animation-loop theorem. -/
def gui0 : DMXControllerGUI :=
  { effect := initState
    dmx := { connected := true, ser := some true }
    current_mode := Mode.strobe
    is_running := true }

/-- A trivial value oracle for the randomized effects. -/
def vals0 : Nat → Int × Int × Int × Int × Option Int := fun _ => (0, 0, 0, 0, none)

/-- A two-fixture registry with mixed types, used to instantiate the
resize-profile theorem. -/
def mixedRegistry : List LightConfig :=
  [{ type := LightType.A, address := 1 }, { type := LightType.B, address := 9 }]

end DMX

namespace DMX

lemma set_channel_apply (d : Nat → Nat) (ch v : Int) (c : Nat) :
    set_channel d ch v c =
      if (c : Int) = ch ∧ 1 ≤ ch ∧ ch ≤ 512 then (clamp255 v).toNat else d c := by
  unfold set_channel
  split_ifs with h1 h2 <;> first | rfl | omega

lemma set_channel_natCast (d : Nat → Nat) (m : Nat) (v : Int) (c : Nat) :
    set_channel d (m : Int) v c =
      if c = m ∧ 1 ≤ m ∧ m ≤ 512 then (clamp255 v).toNat else d c := by
  rw [set_channel_apply]
  exact if_congr (by omega) rfl rfl

lemma set_rgbw_data_apply (configs : List LightConfig) (br : Int) (d : Nat → Nat)
    (i : Nat) (r g b w : Int) (dv : Option Int) (c : Nat) :
    set_rgbw_data configs br d i r g b w dv c =
      match configs[i]? with
      | none => d c
      | some cfg =>
        if c = role_channel cfg .white ∧ 1 ≤ role_channel cfg .white ∧ role_channel cfg .white ≤ 512 then
          (clamp255 w).toNat
        else if c = role_channel cfg .blue ∧ 1 ≤ role_channel cfg .blue ∧ role_channel cfg .blue ≤ 512 then
          (clamp255 b).toNat
        else if c = role_channel cfg .green ∧ 1 ≤ role_channel cfg .green ∧ role_channel cfg .green ≤ 512 then
          (clamp255 g).toNat
        else if c = role_channel cfg .red ∧ 1 ≤ role_channel cfg .red ∧ role_channel cfg .red ≤ 512 then
          (clamp255 r).toNat
        else if c = role_channel cfg .dimmer ∧ 1 ≤ role_channel cfg .dimmer ∧ role_channel cfg .dimmer ≤ 512 then
          (clamp255 (dv.getD br)).toNat
        else d c := by
  cases hcfg : configs[i]? with
  | none => simp [set_rgbw_data, hcfg]
  | some cfg => simp only [set_rgbw_data, hcfg, set_channel_natCast]

end DMX

namespace DMX

lemma set_rgbw_light_configs (s : LightEffect) (i : Nat) (r g b w : Int) (dv : Option Int) :
    (s.set_rgbw i r g b w dv).light_configs = s.light_configs := rfl

lemma set_rgbw_brightness (s : LightEffect) (i : Nat) (r g b w : Int) (dv : Option Int) :
    (s.set_rgbw i r g b w dv).brightness = s.brightness := rfl

lemma set_rgbw_time_counter (s : LightEffect) (i : Nat) (r g b w : Int) (dv : Option Int) :
    (s.set_rgbw i r g b w dv).time_counter = s.time_counter := rfl

lemma set_rgbw_dmx_data (s : LightEffect) (i : Nat) (r g b w : Int) (dv : Option Int) :
    (s.set_rgbw i r g b w dv).dmx_data =
      set_rgbw_data s.light_configs s.brightness s.dmx_data i r g b w dv := rfl

lemma foldl_fields {F : LightEffect → Nat → LightEffect} (hF : RgbwStep F) :
    ∀ (l : List Nat) (s : LightEffect),
      (l.foldl F s).light_configs = s.light_configs ∧
      (l.foldl F s).brightness = s.brightness ∧
      (l.foldl F s).time_counter = s.time_counter := by
  intro l
  induction l with
  | nil => intro s; exact ⟨rfl, rfl, rfl⟩
  | cons j l ih =>
    intro s
    obtain ⟨r, g, b, w, dv, hj⟩ := hF s j
    rcases ih (F s j) with ⟨h1, h2, h3⟩
    rw [List.foldl_cons]
    exact ⟨by rw [h1, hj, set_rgbw_light_configs],
           by rw [h2, hj, set_rgbw_brightness],
           by rw [h3, hj, set_rgbw_time_counter]⟩

lemma set_rgbw_data_outside (configs : List LightConfig) (br : Int) (d : Nat → Nat)
    (i : Nat) (r g b w : Int) (dv : Option Int) (c : Nat)
    (h : ¬ InWriteSet configs c) :
    set_rgbw_data configs br d i r g b w dv c = d c := by
  cases hcfg : configs[i]? with
  | none => simp [set_rgbw_data_apply, hcfg]
  | some cfg =>
    have hmem : cfg ∈ configs := List.mem_iff_getElem?.mpr ⟨i, hcfg⟩
    have hwc : ∀ ρ, ρ ∈ written_roles → ¬ (c = role_channel cfg ρ ∧
        1 ≤ role_channel cfg ρ ∧ role_channel cfg ρ ≤ 512) := by
      intro ρ hρ hcon
      exact h ⟨cfg, hmem, by
        simp only [written_channels, List.mem_map]
        exact ⟨ρ, hρ, hcon.1.symm⟩, by omega, by omega⟩
    simp only [set_rgbw_data_apply, hcfg]
    split_ifs with h1 h2 h3 h4 h5
    · exact absurd h1 (hwc .white (by simp [written_roles]))
    · exact absurd h2 (hwc .blue (by simp [written_roles]))
    · exact absurd h3 (hwc .green (by simp [written_roles]))
    · exact absurd h4 (hwc .red (by simp [written_roles]))
    · exact absurd h5 (hwc .dimmer (by simp [written_roles]))
    · rfl

lemma foldl_outside {F : LightEffect → Nat → LightEffect} (hF : RgbwStep F) (c : Nat) :
    ∀ (l : List Nat) (s : LightEffect), ¬ InWriteSet s.light_configs c →
      (l.foldl F s).dmx_data c = s.dmx_data c := by
  intro l
  induction l with
  | nil => intro s _; rfl
  | cons j l ih =>
    intro s h
    rw [List.foldl_cons]
    obtain ⟨r, g, b, w, dv, hj⟩ := hF s j
    have h2 : ¬ InWriteSet (F s j).light_configs c := by
      rw [hj, set_rgbw_light_configs]; exact h
    rw [ih (F s j) h2, hj, set_rgbw_dmx_data]
    exact set_rgbw_data_outside _ _ _ _ _ _ _ _ _ _ h

end DMX

namespace DMX

lemma rgbw_zero_preserve (configs : List LightConfig) (br : Int) (d : Nat → Nat)
    (i c : Nat) (h : d c = 0) :
    set_rgbw_data configs br d i 0 0 0 0 (some 0) c = 0 := by
  cases hcfg : configs[i]? with
  | none => simpa [set_rgbw_data_apply, hcfg] using h
  | some cfg =>
    simp only [set_rgbw_data_apply, hcfg]
    split_ifs <;> first | rfl | exact h

lemma rgbw_zero_hit (configs : List LightConfig) (br : Int) (d : Nat → Nat)
    (i : Nat) (cfg : LightConfig) (c : Nat) (hcfg : configs[i]? = some cfg)
    (hw : c ∈ written_channels cfg) (h1 : 1 ≤ c) (h2 : c ≤ 512) :
    set_rgbw_data configs br d i 0 0 0 0 (some 0) c = 0 := by
  simp only [written_channels, written_roles, List.map_cons, List.map_nil, List.mem_cons,
    List.not_mem_nil, or_false] at hw
  simp only [set_rgbw_data_apply, hcfg]
  split_ifs <;> first | rfl | (exfalso; omega)

lemma turn_off_fold_zero (cfgs : List LightConfig) (cfg : LightConfig) (c : Nat)
    (hw : c ∈ written_channels cfg) (h1 : 1 ≤ c) (h2 : c ≤ 512) :
    ∀ (l : List Nat) (s : LightEffect), s.light_configs = cfgs →
      ((∃ i ∈ l, cfgs[i]? = some cfg) ∨ s.dmx_data c = 0) →
      (l.foldl (fun acc i => acc.set_rgbw i 0 0 0 0 (some 0)) s).dmx_data c = 0 := by
  intro l
  induction l with
  | nil =>
    intro s hs hd
    rcases hd with ⟨i, hi, _⟩ | h0
    · exact absurd hi (List.not_mem_nil i)
    · exact h0
  | cons j l ih =>
    intro s hs hd
    rw [List.foldl_cons]
    have hsj : (s.set_rgbw j 0 0 0 0 (some 0)).light_configs = cfgs := by
      rw [set_rgbw_light_configs]; exact hs
    rcases hd with ⟨i, hi, hgi⟩ | h0
    · rcases List.mem_cons.mp hi with rfl | hil
      · refine ih _ hsj (Or.inr ?_)
        rw [set_rgbw_dmx_data, hs]
        exact rgbw_zero_hit cfgs s.brightness s.dmx_data i cfg c hgi hw h1 h2
      · exact ih _ hsj (Or.inl ⟨i, hil, hgi⟩)
    · refine ih _ hsj (Or.inr ?_)
      rw [set_rgbw_dmx_data]
      exact rgbw_zero_preserve _ _ _ _ _ h0

lemma rgbwStep_turn_off : RgbwStep (fun acc i => acc.set_rgbw i 0 0 0 0 (some 0)) :=
  fun _ _ => ⟨0, 0, 0, 0, some 0, rfl⟩

lemma rgbwStep_const (X : Int) : RgbwStep (fun acc i => acc.set_rgbw i 0 0 0 X (some X)) :=
  fun _ _ => ⟨0, 0, 0, X, some X, rfl⟩

lemma rgbwStep_white : RgbwStep (fun acc i => acc.set_rgbw i 0 0 0 acc.brightness none) :=
  fun acc _ => ⟨0, 0, 0, acc.brightness, none, rfl⟩

lemma rgbwStep_chase (k : Nat) : RgbwStep (fun acc i =>
    let rgb := hsv_to_rgb (chase_phase acc.time_counter i k : Int) 1 ((acc.brightness : ℚ) / 255)
    acc.set_rgbw i rgb.1 rgb.2.1 rgb.2.2 0 none) :=
  fun _ _ => ⟨_, _, _, 0, none, rfl⟩

lemma rgbwStep_rainbow (base_hue k : Nat) : RgbwStep (fun acc i =>
    let hue := (base_hue + i * (360 / k)) % 360
    let rgb := hsv_to_rgb (hue : Int) (0.8 : ℚ) ((acc.brightness : ℚ) / 255)
    acc.set_rgbw i rgb.1 rgb.2.1 rgb.2.2 0 none) :=
  fun _ _ => ⟨_, _, _, 0, none, rfl⟩

lemma rgbwStep_vals (vals : Nat → Int × Int × Int × Int × Option Int) :
    RgbwStep (fun acc i =>
      let v := vals i
      acc.set_rgbw i v.1 v.2.1 v.2.2.1 v.2.2.2.1 v.2.2.2.2) :=
  fun _ _ => ⟨_, _, _, _, _, rfl⟩

lemma turn_off_all_hit (s : LightEffect) (c : Nat) (h : InWriteSet s.light_configs c) :
    s.turn_off_all.dmx_data c = 0 := by
  obtain ⟨cfg, hmem, hw, h1, h2⟩ := h
  obtain ⟨i, hgi⟩ := List.mem_iff_getElem?.mp hmem
  exact turn_off_fold_zero s.light_configs cfg c hw h1 h2
    (List.range s.light_configs.length) s rfl
    (Or.inl ⟨i, List.mem_range.mpr (List.getElem?_eq_some_iff.mp hgi).1, hgi⟩)

lemma turn_off_all_outside (s : LightEffect) (c : Nat) (h : ¬ InWriteSet s.light_configs c) :
    s.turn_off_all.dmx_data c = s.dmx_data c :=
  foldl_outside rgbwStep_turn_off c (List.range s.light_configs.length) s h

lemma turn_off_all_light_configs (s : LightEffect) :
    s.turn_off_all.light_configs = s.light_configs :=
  (foldl_fields rgbwStep_turn_off (List.range s.light_configs.length) s).1

lemma set_channel_idx0 (d : Nat → Nat) (ch v : Int) : set_channel d ch v 0 = d 0 := by
  rw [set_channel_apply]
  split_ifs with h
  · exfalso; omega
  · rfl

lemma set_rgbw_data_idx0 (configs : List LightConfig) (br : Int) (d : Nat → Nat)
    (i : Nat) (r g b w : Int) (dv : Option Int) :
    set_rgbw_data configs br d i r g b w dv 0 = d 0 := by
  cases hcfg : configs[i]? with
  | none => simp [set_rgbw_data_apply, hcfg]
  | some cfg =>
    simp only [set_rgbw_data_apply, hcfg]
    split_ifs <;> first | rfl | (exfalso; omega)

lemma foldl_idx0 {F : LightEffect → Nat → LightEffect} (hF : RgbwStep F) :
    ∀ (l : List Nat) (s : LightEffect), (l.foldl F s).dmx_data 0 = s.dmx_data 0 := by
  intro l
  induction l with
  | nil => intro s; rfl
  | cons j l ih =>
    intro s
    obtain ⟨r, g, b, w, dv, hj⟩ := hF s j
    rw [List.foldl_cons, ih, hj, set_rgbw_dmx_data, set_rgbw_data_idx0]

lemma turn_off_all_idx0 (s : LightEffect) : s.turn_off_all.dmx_data 0 = s.dmx_data 0 :=
  foldl_idx0 rgbwStep_turn_off _ s

lemma effectStep_idx0 {s s' : LightEffect} (hstep : EffectStep s s')
    (h : s.dmx_data 0 = 0) : s'.dmx_data 0 = 0 := by
  cases hstep with
  | set_brightness b hb1 hb2 => exact h
  | turn_off => exact (turn_off_all_idx0 s).trans h
  | white => exact (foldl_idx0 rgbwStep_white _ s).trans h
  | chase => exact (foldl_idx0 (rgbwStep_chase s.light_configs.length) _ s).trans h
  | strobe => exact (foldl_idx0 (rgbwStep_const (strobe_intensity s.time_counter)) _ s).trans h
  | rainbow => exact (foldl_idx0 (rgbwStep_rainbow ((s.time_counter * 2) % 360)
      s.light_configs.length) _ s).trans h
  | rand_render vals dt => exact (foldl_idx0 (rgbwStep_vals vals) _ s).trans h
  | reset_counter => exact h
  | count_dialog n => exact (turn_off_all_idx0 _).trans h
  | type_dialog choice => exact (turn_off_all_idx0 _).trans h
  | raw_write ch v => exact (set_channel_idx0 s.dmx_data ch v).trans h

/-- C5: index 0 of the universe (the DMX start code) is 0 initially and stays
0 in every reachable state: `set_channel` guards its writes to channels
`1..512`, every render and control command writes only through it, so no
operation of the system ever touches index 0. -/
theorem C5_start_code_zero (s : LightEffect) (h : Reach s) : s.dmx_data 0 = 0 := by
  induction h with
  | refl => rfl
  | tail _ hstep ih => exact effectStep_idx0 hstep ih

/-- Witness for C5 at a concrete reachable state. -/
theorem C5_start_code_zero_witness : (initState.white_light).dmx_data 0 = 0 :=
  C5_start_code_zero initState.white_light
    (Relation.ReflTransGen.tail Relation.ReflTransGen.refl (EffectStep.white initState))

end DMX

namespace DMX

set_option maxRecDepth 8192

lemma renderStep_configs {s s' : LightEffect} (h : RenderStep s s') :
    s'.light_configs = s.light_configs := by
  cases h with
  | set_brightness b hb1 hb2 => rfl
  | turn_off => exact turn_off_all_light_configs s
  | white => exact (foldl_fields rgbwStep_white _ s).1
  | chase => exact (foldl_fields (rgbwStep_chase s.light_configs.length) _ s).1
  | strobe => exact (foldl_fields (rgbwStep_const (strobe_intensity s.time_counter)) _ s).1
  | rainbow => exact (foldl_fields (rgbwStep_rainbow ((s.time_counter * 2) % 360)
      s.light_configs.length) _ s).1
  | rand_render vals dt => exact (foldl_fields (rgbwStep_vals vals) _ s).1
  | reset_counter => rfl

lemma renderStep_outside_dmx {s s' : LightEffect} (h : RenderStep s s') (c : Nat)
    (hc : ¬ InWriteSet s.light_configs c) : s'.dmx_data c = s.dmx_data c := by
  cases h with
  | set_brightness b hb1 hb2 => rfl
  | turn_off => exact turn_off_all_outside s c hc
  | white => exact foldl_outside rgbwStep_white c _ s hc
  | chase => exact foldl_outside (rgbwStep_chase s.light_configs.length) c _ s hc
  | strobe => exact foldl_outside (rgbwStep_const (strobe_intensity s.time_counter)) c _ s hc
  | rainbow => exact foldl_outside (rgbwStep_rainbow ((s.time_counter * 2) % 360)
      s.light_configs.length) c _ s hc
  | rand_render vals dt => exact foldl_outside (rgbwStep_vals vals) c _ s hc
  | reset_counter => rfl

lemma renderStep_inv {s s' : LightEffect} (h : RenderStep s s') (hinv : FixedInv s) :
    FixedInv s' := by
  have hcfg := renderStep_configs h
  refine ⟨by rw [hcfg]; exact hinv.1, ?_⟩
  intro c hc
  rw [hcfg] at hc
  rw [renderStep_outside_dmx h c hc]
  exact hinv.2 c hc

lemma reachFixed_inv (s : LightEffect) (h : ReachFixed s) : FixedInv s := by
  induction h with
  | refl => exact ⟨rfl, fun c hc => rfl⟩
  | tail _ hstep ih => exact renderStep_inv hstep ih

/-- C2 (amended): for every state reachable from the initial configuration by
effect renders, brightness changes and mode changes under a fixed fixture
registry, `turn_off_all` followed by a snapshot yields all zeros (index 0
included).  After a fixture-count or profile change, channels outside the
current fixtures' dimmer/red/green/blue/white role channels may keep earlier
values, which is why the registry must stay fixed (see the counterexample). -/
theorem C2_turn_off_snapshot (s : LightEffect) (h : ReachFixed s) :
    ∀ x ∈ snapshot s.turn_off_all.dmx_data, x = 0 := by
  intro x hx
  obtain ⟨c, hc, rfl⟩ := List.mem_map.mp hx
  by_cases hw : InWriteSet s.light_configs c
  · exact turn_off_all_hit s c hw
  · rw [turn_off_all_outside s c hw]
    exact (reachFixed_inv s h).2 c hw

/-- Witness for the amended C2 on a concrete registry-fixed run. -/
theorem C2_turn_off_snapshot_witness : initState.white_light.turn_off_all.dmx_data 5 = 0 :=
  C2_turn_off_snapshot initState.white_light
    (Relation.ReflTransGen.tail Relation.ReflTransGen.refl (RenderStep.white initState))
    (initState.white_light.turn_off_all.dmx_data 5)
    (List.mem_map.mpr ⟨5, List.mem_range.mpr (by omega), rfl⟩)

/-- C2 counterexample: render White Light at brightness 128 with three
fixtures, shrink the count to 1, then invoke `turn_off_all` as the claim
prescribes: byte 9 of the snapshot (fixture 1's old dimmer channel) is still
128, so the snapshot is not all zeros on indices 1..512, refuting the claim
for reachable states that include a fixture-count change. -/
theorem C2_counterexample :
    Reach s2cex ∧ (snapshot s2cex.turn_off_all.dmx_data)[9]? = some 128 ∧ (128 : Nat) ≠ 0 := by
  refine ⟨?_, ?_, ?_⟩
  · unfold s2cex
    exact Relation.ReflTransGen.tail
      (Relation.ReflTransGen.tail Relation.ReflTransGen.refl (EffectStep.white initState))
      (EffectStep.count_dialog initState.white_light 1)
  · decide
  · decide

end DMX

namespace DMX

/-- C3: for channels in `[1, 512]`, `set_channel` stores the value clamped to
`[0, 255]` (equivalently `min 255 (max 0 v)`); for any channel outside
`[1, 512]` it leaves the whole universe unchanged. -/
theorem C3_set_channel_clamps (d : Nat → Nat) (c v : Int) :
    (1 ≤ c → c ≤ 512 → ((set_channel d c v c.toNat : Nat) : Int) = min 255 (max 0 v)) ∧
    (¬ (1 ≤ c ∧ c ≤ 512) → set_channel d c v = d) := by
  constructor
  · intro h1 h2
    rw [set_channel_apply, if_pos ⟨by omega, h1, h2⟩]
    have h3 : (0 : Int) ≤ clamp255 v := le_max_left 0 (min 255 v)
    rw [Int.toNat_of_nonneg h3]
    unfold clamp255
    omega
  · intro hng
    funext x
    simp only [set_channel, if_neg hng]

/-- Witness for C3 at channel 5, value 300 (stored as 255) and at
out-of-range channel 600 (universe unchanged). -/
theorem C3_set_channel_clamps_witness :
    (((set_channel (fun _ => 0) 5 300 (5 : Int).toNat : Nat) : Int) = min 255 (max 0 300)) ∧
    set_channel (fun _ => 0) 600 7 = (fun _ => 0) :=
  ⟨(C3_set_channel_clamps (fun _ => 0) 5 300).1 (by decide) (by decide),
   (C3_set_channel_clamps (fun _ => 0) 600 7).2 (by decide)⟩

/-- C8: `hsv_to_rgb` wraps its hue modulo 360, and at s = 1, v = 1 maps hue
0, 60, 120, 180, 240, 300 to pure red, yellow, green, cyan, blue, magenta. -/
theorem C8_hsv_to_rgb_wrap_and_primaries (h : Int) (s v : ℚ) :
    hsv_to_rgb h s v = hsv_to_rgb (h % 360) s v ∧
    hsv_to_rgb 0 1 1 = (255, 0, 0) ∧
    hsv_to_rgb 60 1 1 = (255, 255, 0) ∧
    hsv_to_rgb 120 1 1 = (0, 255, 0) ∧
    hsv_to_rgb 180 1 1 = (0, 255, 255) ∧
    hsv_to_rgb 240 1 1 = (0, 0, 255) ∧
    hsv_to_rgb 300 1 1 = (255, 0, 255) := by
  refine ⟨?_, ?_, ?_, ?_, ?_, ?_, ?_⟩
  · have e : h % 360 % 360 = h % 360 := Int.emod_emod_of_dvd h dvd_rfl
    simp only [hsv_to_rgb, e]
  all_goals norm_num [hsv_to_rgb, qmod, pyInt, abs_of_nonneg, abs_of_nonpos]

/-- C4: when `send_data` is invoked on an open, connected link and the serial
write faults, the connection transitions to disconnected with the port
closed, the caught fault never escapes (`send_data` is total, the `except`
branch producing the new state), and one animation-loop iteration leaves
`is_running` untouched while delegating transmission to `send_data` — so a
transmit fault can never terminate the loop. -/
theorem C4_transmit_fault_recovery (dmx : DMXController) (hconn : dmx.connected = true)
    (hopen : dmx.ser = some true) (g : DMXControllerGUI)
    (vals : Nat → Int × Int × Int × Int × Option Int) (fault : Bool) :
    (dmx.send_data true).connected = false ∧ (dmx.send_data true).ser = some false ∧
    (animation_tick g vals fault).is_running = g.is_running ∧
    (animation_tick g vals fault).dmx = g.dmx.send_data fault := by
  refine ⟨?_, ?_, rfl, rfl⟩ <;>
    simp [DMXController.send_data, hopen, hconn, write_packet]

/-- Witness for C4 on a concrete open connection and GUI state. -/
theorem C4_transmit_fault_recovery_witness :
    (gui0.dmx.send_data true).connected = false ∧ (gui0.dmx.send_data true).ser = some false ∧
    (animation_tick gui0 vals0 true).is_running = gui0.is_running ∧
    (animation_tick gui0 vals0 true).dmx = gui0.dmx.send_data true :=
  C4_transmit_fault_recovery gui0.dmx rfl rfl gui0 vals0 true

/-- C1 (code bug per spec §9): `_update_light_configs` accepts fixture count
65 without any overflow check — fixture 64 is installed with start channel
513, whose 8-channel block `513..520` (end `513 + 8 - 1`) exceeds channel
512, and the registry is replaced rather than left unchanged; the claimed
`ConfigError(AddressOverflow)` rejection does not exist in the source. -/
theorem C1_overflow_accepted :
    (update_light_configs (update_light_configs [] 3) 65).length = 65 ∧
    (update_light_configs (update_light_configs [] 3) 65)[64]? =
      some { type := LightType.B, address := 513 } ∧
    513 + 8 - 1 > 512 :=
  ⟨by decide, by decide, by decide⟩

lemma readdress_getElem? :
    ∀ (l : List LightConfig) (i0 j : Nat),
      (readdress i0 l)[j]? =
        (l[j]?).map (fun cfg => { cfg with address := get_start_address (i0 + j) }) := by
  intro l
  induction l with
  | nil => intro i0 j; simp [readdress]
  | cons cfg rest ih =>
    intro i0 j
    cases j with
    | zero => simp [readdress]
    | succ j =>
      have harith : i0 + (j + 1) = (i0 + 1) + j := by omega
      simp only [readdress, List.getElem?_cons_succ, harith]
      exact ih (i0 + 1) j

lemma readdress_type (l : List LightConfig) (i : Nat) :
    ((readdress 0 l)[i]?).map LightConfig.type = (l[i]?).map LightConfig.type := by
  rw [readdress_getElem?, Option.map_map]
  rfl

/-- C9: when the fixture count changes, every newly added fixture (index in
`[old, new)`) is created with profile B, and every fixture below
`min(old, new)` keeps the profile it had before the resize. -/
theorem C9_resize_profiles (cfgs : List LightConfig) (n : Nat) :
    (∀ i, cfgs.length ≤ i → i < n →
      ((update_light_configs cfgs n)[i]?).map LightConfig.type = some LightType.B) ∧
    (∀ i, i < min cfgs.length n →
      ((update_light_configs cfgs n)[i]?).map LightConfig.type =
        (cfgs[i]?).map LightConfig.type) := by
  constructor
  · intro i hlen hlt
    have hgt : n > cfgs.length := lt_of_le_of_lt hlen hlt
    simp only [update_light_configs]
    rw [if_pos hgt, readdress_type, List.getElem?_append_right hlen, List.getElem?_map,
      List.getElem?_range' cfgs.length 1 (by omega)]
    rfl
  · intro i hmin
    simp only [update_light_configs]
    by_cases h1 : n > cfgs.length
    · rw [if_pos h1, readdress_type, List.getElem?_append, if_pos (by omega)]
    · rw [if_neg h1]
      by_cases h2 : n < cfgs.length
      · rw [if_pos h2, readdress_type, List.getElem?_take, if_pos (by omega)]
      · rw [if_neg h2, readdress_type]

/-- Witness for C9: growing a mixed two-fixture registry to three adds a
type-B fixture at index 2 and keeps index 0's type A. -/
theorem C9_resize_profiles_witness :
    ((update_light_configs mixedRegistry 3)[2]?).map LightConfig.type = some LightType.B ∧
    ((update_light_configs mixedRegistry 3)[0]?).map LightConfig.type =
      (mixedRegistry[0]?).map LightConfig.type :=
  ⟨(C9_resize_profiles mixedRegistry 3).1 2 (by decide) (by decide),
   (C9_resize_profiles mixedRegistry 3).2 0 (by decide)⟩

end DMX

namespace DMX

set_option maxHeartbeats 1000000

lemma offset_bounds (ty : LightType) (ρ : Role) :
    1 ≤ get_channel_map ty ρ ∧ get_channel_map ty ρ ≤ 8 := by
  cases ty <;> cases ρ <;> decide

lemma role_channel_block (cfg : LightConfig) (j : Nat) (ha : cfg.address = 8 * j + 1)
    (ρ : Role) : 8 * j + 1 ≤ role_channel cfg ρ ∧ role_channel cfg ρ ≤ 8 * j + 8 := by
  have h := offset_bounds cfg.type ρ
  unfold role_channel
  omega

lemma rgbw_other_block (cfgs : List LightConfig) (br : Int) (d : Nat → Nat)
    (j : Nat) (r g b w : Int) (dv : Option Int) (c i : Nat) (hstd : StdLayout cfgs)
    (hne : j ≠ i) (hc1 : 8 * i + 1 ≤ c) (hc2 : c ≤ 8 * i + 8) :
    set_rgbw_data cfgs br d j r g b w dv c = d c := by
  cases hcfg : cfgs[j]? with
  | none => simp [set_rgbw_data_apply, hcfg]
  | some cfg =>
    have ha := hstd j cfg hcfg
    have h1 := role_channel_block cfg j ha .white
    have h2 := role_channel_block cfg j ha .blue
    have h3 := role_channel_block cfg j ha .green
    have h4 := role_channel_block cfg j ha .red
    have h5 := role_channel_block cfg j ha .dimmer
    simp only [set_rgbw_data_apply, hcfg]
    split_ifs <;> first | rfl | (exfalso; omega)

lemma foldl_read {F : LightEffect → Nat → LightEffect} (hF : RgbwStep F)
    (cfgs : List LightConfig) (br : Int) (t : Nat) (hstd : StdLayout cfgs)
    (i c : Nat) (hc1 : 8 * i + 1 ≤ c) (hc2 : c ≤ 8 * i + 8) (val : Nat)
    (hset : ∀ acc : LightEffect, acc.light_configs = cfgs → acc.brightness = br →
      acc.time_counter = t → (F acc i).dmx_data c = val) :
    ∀ (n : Nat), i < n → ∀ s : LightEffect, s.light_configs = cfgs → s.brightness = br →
      s.time_counter = t → ((List.range n).foldl F s).dmx_data c = val := by
  intro n
  induction n with
  | zero => intro h; exact absurd h (Nat.not_lt_zero i)
  | succ n ih =>
    intro hin s hs hb ht
    rw [List.range_succ, List.foldl_append]
    have hfields := foldl_fields hF (List.range n) s
    rcases Nat.lt_succ_iff_lt_or_eq.mp hin with hlt | heq
    · have hinner := ih hlt s hs hb ht
      simp only [List.foldl_cons, List.foldl_nil]
      obtain ⟨r, g, b, w, dv, hjeq⟩ := hF ((List.range n).foldl F s) n
      rw [hjeq, set_rgbw_dmx_data]
      have hcfg2 : ((List.range n).foldl F s).light_configs = cfgs := by rw [hfields.1, hs]
      rw [hcfg2, rgbw_other_block cfgs _ _ n r g b w dv c i hstd (by omega) hc1 hc2]
      exact hinner
    · subst heq
      simp only [List.foldl_cons, List.foldl_nil]
      exact hset _ (by rw [hfields.1, hs]) (by rw [hfields.2.1, hb]) (by rw [hfields.2.2, ht])

lemma set_rgbw_read_role (cfgs : List LightConfig) (br : Int) (d : Nat → Nat)
    (i : Nat) (r g b w : Int) (dv : Option Int) (cfg : LightConfig)
    (hcfg : cfgs[i]? = some cfg) (h1 : 1 ≤ cfg.address) (h2 : cfg.address + 7 ≤ 512) :
    set_rgbw_data cfgs br d i r g b w dv (role_channel cfg .white) = (clamp255 w).toNat ∧
    set_rgbw_data cfgs br d i r g b w dv (role_channel cfg .blue) = (clamp255 b).toNat ∧
    set_rgbw_data cfgs br d i r g b w dv (role_channel cfg .green) = (clamp255 g).toNat ∧
    set_rgbw_data cfgs br d i r g b w dv (role_channel cfg .red) = (clamp255 r).toNat ∧
    set_rgbw_data cfgs br d i r g b w dv (role_channel cfg .dimmer) =
      (clamp255 (dv.getD br)).toNat := by
  have hty : cfg.type = LightType.A ∨ cfg.type = LightType.B := by
    cases cfg.type
    · exact Or.inl rfl
    · exact Or.inr rfl
  rcases hty with hty | hty <;>
  · refine ⟨?_, ?_, ?_, ?_, ?_⟩ <;>
    · simp only [set_rgbw_data_apply, hcfg, role_channel, hty, get_channel_map, CHANNEL_MAPS,
        eq_self_iff_true, true_and]
      split_ifs <;> first | rfl | (exfalso; omega)

lemma update_light_configs_std (cfgs : List LightConfig) (n : Nat) :
    StdLayout (update_light_configs cfgs n) := by
  intro j cfg h
  simp only [update_light_configs] at h
  rw [readdress_getElem?] at h
  rcases Option.map_eq_some'.mp h with ⟨cfg0, _, rfl⟩
  simp [get_start_address]
  omega

end DMX

namespace DMX

set_option maxRecDepth 8192

/-- C6: in Strobe mode the rendered intensity is 255 when
`floor(t/2) mod 2 = 0` and 0 otherwise (periodic 255,255,0,0 over t), the
white and dimmer channels of every fixture receive that intensity, red,
green and blue receive 0, and the counter advances by exactly 1. -/
theorem C6_strobe_render (s : LightEffect) (hstd : StdLayout s.light_configs)
    (i : Nat) (cfg : LightConfig) (hcfg : s.light_configs[i]? = some cfg)
    (hfit : 8 * i + 8 ≤ 512) :
    s.strobe_effect.time_counter = s.time_counter + 1 ∧
    s.strobe_effect.dmx_data (role_channel cfg .white) =
      (if (s.time_counter / 2) % 2 = 0 then 255 else 0) ∧
    s.strobe_effect.dmx_data (role_channel cfg .dimmer) =
      (if (s.time_counter / 2) % 2 = 0 then 255 else 0) ∧
    s.strobe_effect.dmx_data (role_channel cfg .red) = 0 ∧
    s.strobe_effect.dmx_data (role_channel cfg .green) = 0 ∧
    s.strobe_effect.dmx_data (role_channel cfg .blue) = 0 ∧
    (List.range 6).map strobe_intensity = [255, 255, 0, 0, 255, 255] := by
  have ha := hstd i cfg hcfg
  have hb := fun ρ => role_channel_block cfg i ha ρ
  have hlen : i < s.light_configs.length := (List.getElem?_eq_some_iff.mp hcfg).1
  have ha1 : 1 ≤ cfg.address := by omega
  have ha2 : cfg.address + 7 ≤ 512 := by omega
  have hclamp : ∀ t : Nat, (clamp255 (strobe_intensity t)).toNat =
      (if (t / 2) % 2 = 0 then 255 else 0) := by
    intro t
    unfold strobe_intensity
    split_ifs <;> rfl
  have hread : ∀ (ρ : Role) (val : Nat),
      (∀ acc : LightEffect, acc.light_configs = s.light_configs →
        acc.brightness = s.brightness → acc.time_counter = s.time_counter →
        (acc.set_rgbw i 0 0 0 (strobe_intensity s.time_counter)
          (some (strobe_intensity s.time_counter))).dmx_data (role_channel cfg ρ) = val) →
      ((List.range s.light_configs.length).foldl
        (fun acc j => acc.set_rgbw j 0 0 0 (strobe_intensity s.time_counter)
          (some (strobe_intensity s.time_counter))) s).dmx_data (role_channel cfg ρ) = val := by
    intro ρ val hset
    exact foldl_read (rgbwStep_const (strobe_intensity s.time_counter)) s.light_configs
      s.brightness s.time_counter hstd i (role_channel cfg ρ) (hb ρ).1 (hb ρ).2 val hset
      s.light_configs.length hlen s rfl rfl rfl
  refine ⟨?_, ?_, ?_, ?_, ?_, ?_, by decide⟩
  · show ((List.range s.light_configs.length).foldl
        (fun acc j => acc.set_rgbw j 0 0 0 (strobe_intensity s.time_counter)
          (some (strobe_intensity s.time_counter))) s).time_counter + 1 = s.time_counter + 1
    rw [(foldl_fields (rgbwStep_const (strobe_intensity s.time_counter))
      (List.range s.light_configs.length) s).2.2]
  · refine (hread .white ((clamp255 (strobe_intensity s.time_counter)).toNat) ?_).trans
      (hclamp s.time_counter)
    intro acc hc hbr ht
    rw [set_rgbw_dmx_data, hc]
    exact (set_rgbw_read_role s.light_configs acc.brightness acc.dmx_data i 0 0 0
      (strobe_intensity s.time_counter) (some (strobe_intensity s.time_counter))
      cfg hcfg ha1 ha2).1
  · refine (hread .dimmer ((clamp255 (strobe_intensity s.time_counter)).toNat) ?_).trans
      (hclamp s.time_counter)
    intro acc hc hbr ht
    rw [set_rgbw_dmx_data, hc]
    exact (set_rgbw_read_role s.light_configs acc.brightness acc.dmx_data i 0 0 0
      (strobe_intensity s.time_counter) (some (strobe_intensity s.time_counter))
      cfg hcfg ha1 ha2).2.2.2.2
  · refine (hread .red ((clamp255 (0 : Int)).toNat) ?_).trans (by decide)
    intro acc hc hbr ht
    rw [set_rgbw_dmx_data, hc]
    exact (set_rgbw_read_role s.light_configs acc.brightness acc.dmx_data i 0 0 0
      (strobe_intensity s.time_counter) (some (strobe_intensity s.time_counter))
      cfg hcfg ha1 ha2).2.2.2.1
  · refine (hread .green ((clamp255 (0 : Int)).toNat) ?_).trans (by decide)
    intro acc hc hbr ht
    rw [set_rgbw_dmx_data, hc]
    exact (set_rgbw_read_role s.light_configs acc.brightness acc.dmx_data i 0 0 0
      (strobe_intensity s.time_counter) (some (strobe_intensity s.time_counter))
      cfg hcfg ha1 ha2).2.2.1
  · refine (hread .blue ((clamp255 (0 : Int)).toNat) ?_).trans (by decide)
    intro acc hc hbr ht
    rw [set_rgbw_dmx_data, hc]
    exact (set_rgbw_read_role s.light_configs acc.brightness acc.dmx_data i 0 0 0
      (strobe_intensity s.time_counter) (some (strobe_intensity s.time_counter))
      cfg hcfg ha1 ha2).2.1

/-- Witness for C6 on the initial state (three type-B fixtures, counter 0):
fixture 0's white channel 8 and dimmer channel 1 read 255, rgb read 0. -/
theorem C6_strobe_render_witness :
    initState.strobe_effect.time_counter = initState.time_counter + 1 ∧
    initState.strobe_effect.dmx_data
        (role_channel { type := LightType.B, address := 1 } .white) =
      (if (initState.time_counter / 2) % 2 = 0 then 255 else 0) ∧
    initState.strobe_effect.dmx_data
        (role_channel { type := LightType.B, address := 1 } .dimmer) =
      (if (initState.time_counter / 2) % 2 = 0 then 255 else 0) ∧
    initState.strobe_effect.dmx_data
        (role_channel { type := LightType.B, address := 1 } .red) = 0 ∧
    initState.strobe_effect.dmx_data
        (role_channel { type := LightType.B, address := 1 } .green) = 0 ∧
    initState.strobe_effect.dmx_data
        (role_channel { type := LightType.B, address := 1 } .blue) = 0 ∧
    (List.range 6).map strobe_intensity = [255, 255, 0, 0, 255, 255] :=
  C6_strobe_render initState (update_light_configs_std [] 3) 0
    { type := LightType.B, address := 1 } (by decide) (by decide)

end DMX

namespace DMX

/-- C10: for a fixture at the default address `8*i+1` with profile A or B, one
`set_rgbw` call targets exactly the five channels mapped to the dimmer, red,
green, blue and white roles — all inside the fixture's block
`[8*i+1, 8*i+8]` — writing the clamped values, and every channel outside
those five (the fixture's strobe/mode/speed channels and all other fixtures'
blocks included) is left unchanged. -/
theorem C10_set_rgbw_exact (cfgs : List LightConfig) (br : Int) (d : Nat → Nat)
    (i : Nat) (r g b w : Int) (dv : Option Int) (cfg : LightConfig)
    (hcfg : cfgs[i]? = some cfg) (ha : cfg.address = 8 * i + 1)
    (hfit : 8 * i + 8 ≤ 512) :
    (∀ ρ ∈ written_roles,
      8 * i + 1 ≤ role_channel cfg ρ ∧ role_channel cfg ρ ≤ 8 * i + 8) ∧
    (∀ c, c ∉ written_channels cfg → set_rgbw_data cfgs br d i r g b w dv c = d c) ∧
    set_rgbw_data cfgs br d i r g b w dv (role_channel cfg .dimmer) =
      (clamp255 (dv.getD br)).toNat ∧
    set_rgbw_data cfgs br d i r g b w dv (role_channel cfg .red) = (clamp255 r).toNat ∧
    set_rgbw_data cfgs br d i r g b w dv (role_channel cfg .green) = (clamp255 g).toNat ∧
    set_rgbw_data cfgs br d i r g b w dv (role_channel cfg .blue) = (clamp255 b).toNat ∧
    set_rgbw_data cfgs br d i r g b w dv (role_channel cfg .white) = (clamp255 w).toNat := by
  have ha1 : 1 ≤ cfg.address := by omega
  have ha2 : cfg.address + 7 ≤ 512 := by omega
  have hrr := set_rgbw_read_role cfgs br d i r g b w dv cfg hcfg ha1 ha2
  refine ⟨fun ρ _ => role_channel_block cfg i ha ρ, ?_,
    hrr.2.2.2.2, hrr.2.2.2.1, hrr.2.2.1, hrr.2.1, hrr.1⟩
  intro c hc
  have hnc : ∀ ρ, ρ ∈ written_roles → ¬ (c = role_channel cfg ρ ∧
      1 ≤ role_channel cfg ρ ∧ role_channel cfg ρ ≤ 512) := by
    intro ρ hρ hcon
    exact hc (by
      simp only [written_channels, List.mem_map]
      exact ⟨ρ, hρ, hcon.1.symm⟩)
  simp only [set_rgbw_data_apply, hcfg]
  split_ifs with h1 h2 h3 h4 h5
  · exact absurd h1 (hnc .white (by simp [written_roles]))
  · exact absurd h2 (hnc .blue (by simp [written_roles]))
  · exact absurd h3 (hnc .green (by simp [written_roles]))
  · exact absurd h4 (hnc .red (by simp [written_roles]))
  · exact absurd h5 (hnc .dimmer (by simp [written_roles]))
  · rfl

/-- Witness for C10: fixture 1 (type B, address 9) of the initial registry,
written with r=10, g=20, b=30, w=40 and defaulted dimmer. -/
theorem C10_set_rgbw_exact_witness :
    (∀ ρ ∈ written_roles,
      8 * 1 + 1 ≤ role_channel { type := LightType.B, address := 9 } ρ ∧
      role_channel { type := LightType.B, address := 9 } ρ ≤ 8 * 1 + 8) ∧
    (∀ c, c ∉ written_channels { type := LightType.B, address := 9 } →
      set_rgbw_data initState.light_configs 5 (fun _ => 0) 1 10 20 30 40 none c =
        (fun _ => 0 : Nat → Nat) c) ∧
    set_rgbw_data initState.light_configs 5 (fun _ => 0) 1 10 20 30 40 none
        (role_channel { type := LightType.B, address := 9 } .dimmer) =
      (clamp255 ((none : Option Int).getD 5)).toNat ∧
    set_rgbw_data initState.light_configs 5 (fun _ => 0) 1 10 20 30 40 none
        (role_channel { type := LightType.B, address := 9 } .red) = (clamp255 10).toNat ∧
    set_rgbw_data initState.light_configs 5 (fun _ => 0) 1 10 20 30 40 none
        (role_channel { type := LightType.B, address := 9 } .green) = (clamp255 20).toNat ∧
    set_rgbw_data initState.light_configs 5 (fun _ => 0) 1 10 20 30 40 none
        (role_channel { type := LightType.B, address := 9 } .blue) = (clamp255 30).toNat ∧
    set_rgbw_data initState.light_configs 5 (fun _ => 0) 1 10 20 30 40 none
        (role_channel { type := LightType.B, address := 9 } .white) = (clamp255 40).toNat :=
  C10_set_rgbw_exact initState.light_configs 5 (fun _ => 0) 1 10 20 30 40 none
    { type := LightType.B, address := 9 } (by decide) (by decide) (by decide)

end DMX

namespace DMX

lemma hsv_red : hsv_to_rgb 0 1 1 = (255, 0, 0) := by
  norm_num [hsv_to_rgb, qmod, pyInt, abs_of_nonneg, abs_of_nonpos]

lemma hsv_yellow : hsv_to_rgb 60 1 1 = (255, 255, 0) := by
  norm_num [hsv_to_rgb, qmod, pyInt, abs_of_nonneg, abs_of_nonpos]

lemma hsv_green : hsv_to_rgb 120 1 1 = (0, 255, 0) := by
  norm_num [hsv_to_rgb, qmod, pyInt, abs_of_nonneg, abs_of_nonpos]

lemma hsv_cyan : hsv_to_rgb 180 1 1 = (0, 255, 255) := by
  norm_num [hsv_to_rgb, qmod, pyInt, abs_of_nonneg, abs_of_nonpos]

lemma hsv_blue : hsv_to_rgb 240 1 1 = (0, 0, 255) := by
  norm_num [hsv_to_rgb, qmod, pyInt, abs_of_nonneg, abs_of_nonpos]

lemma hsv_magenta : hsv_to_rgb 300 1 1 = (255, 0, 255) := by
  norm_num [hsv_to_rgb, qmod, pyInt, abs_of_nonneg, abs_of_nonpos]

lemma hsv_51 : hsv_to_rgb 51 1 1 = (255, 216, 0) := by
  norm_num [hsv_to_rgb, qmod, pyInt, abs_of_nonneg, abs_of_nonpos]

lemma color_chase_channels (s : LightEffect) (hstd : StdLayout s.light_configs) :
    s.color_chase.time_counter = s.time_counter + 2 ∧
    (∀ i cfg, s.light_configs[i]? = some cfg → 8 * i + 8 ≤ 512 →
      s.color_chase.dmx_data (role_channel cfg .red) =
        (clamp255 (hsv_to_rgb (chase_phase s.time_counter i s.light_configs.length : Int) 1
          ((s.brightness : ℚ) / 255)).1).toNat ∧
      s.color_chase.dmx_data (role_channel cfg .green) =
        (clamp255 (hsv_to_rgb (chase_phase s.time_counter i s.light_configs.length : Int) 1
          ((s.brightness : ℚ) / 255)).2.1).toNat ∧
      s.color_chase.dmx_data (role_channel cfg .blue) =
        (clamp255 (hsv_to_rgb (chase_phase s.time_counter i s.light_configs.length : Int) 1
          ((s.brightness : ℚ) / 255)).2.2).toNat ∧
      s.color_chase.dmx_data (role_channel cfg .white) = 0) := by
  constructor
  · exact congrArg (· + 2)
      (foldl_fields (rgbwStep_chase s.light_configs.length)
        (List.range s.light_configs.length) s).2.2
  · intro i cfg hcfg hfit
    have ha := hstd i cfg hcfg
    have hb := fun ρ => role_channel_block cfg i ha ρ
    have hlen : i < s.light_configs.length := (List.getElem?_eq_some_iff.mp hcfg).1
    have ha1 : 1 ≤ cfg.address := by omega
    have ha2 : cfg.address + 7 ≤ 512 := by omega
    have hread : ∀ (ρ : Role) (val : Nat),
        (∀ acc : LightEffect, acc.light_configs = s.light_configs →
          acc.brightness = s.brightness → acc.time_counter = s.time_counter →
          (acc.set_rgbw i
            (hsv_to_rgb (chase_phase acc.time_counter i s.light_configs.length : Int) 1
              ((acc.brightness : ℚ) / 255)).1
            (hsv_to_rgb (chase_phase acc.time_counter i s.light_configs.length : Int) 1
              ((acc.brightness : ℚ) / 255)).2.1
            (hsv_to_rgb (chase_phase acc.time_counter i s.light_configs.length : Int) 1
              ((acc.brightness : ℚ) / 255)).2.2
            0 none).dmx_data (role_channel cfg ρ) = val) →
        s.color_chase.dmx_data (role_channel cfg ρ) = val := by
      intro ρ val hset
      exact foldl_read (rgbwStep_chase s.light_configs.length) s.light_configs
        s.brightness s.time_counter hstd i (role_channel cfg ρ) (hb ρ).1 (hb ρ).2 val hset
        s.light_configs.length hlen s rfl rfl rfl
    refine ⟨?_, ?_, ?_, ?_⟩
    · refine hread .red _ ?_
      intro acc hc hbr ht
      rw [set_rgbw_dmx_data, hc, hbr, ht]
      exact (set_rgbw_read_role s.light_configs s.brightness acc.dmx_data i _ _ _ 0 none
        cfg hcfg ha1 ha2).2.2.2.1
    · refine hread .green _ ?_
      intro acc hc hbr ht
      rw [set_rgbw_dmx_data, hc, hbr, ht]
      exact (set_rgbw_read_role s.light_configs s.brightness acc.dmx_data i _ _ _ 0 none
        cfg hcfg ha1 ha2).2.2.1
    · refine hread .blue _ ?_
      intro acc hc hbr ht
      rw [set_rgbw_dmx_data, hc, hbr, ht]
      exact (set_rgbw_read_role s.light_configs s.brightness acc.dmx_data i _ _ _ 0 none
        cfg hcfg ha1 ha2).2.1
    · refine (hread .white ((clamp255 (0 : Int)).toNat) ?_).trans (by decide)
      intro acc hc hbr ht
      rw [set_rgbw_dmx_data, hc, hbr, ht]
      exact (set_rgbw_read_role s.light_configs s.brightness acc.dmx_data i _ _ _ 0 none
        cfg hcfg ha1 ha2).1

end DMX

namespace DMX

/-- C7 (amended): in Color Chase with k fixtures the hue passed to the HSV
conversion is `(t + i * (360 / k)) mod 360` with integer floor division
`360 // k` (not the exact `i * 360 / k` of the claim), saturation 1, value
`brightness / 255`, white 0, and the counter advances by 2; at t = 0, k = 3,
brightness = 255 the three fixtures render RGB (255,0,0), (0,255,0),
(0,0,255) exactly (channels 5/6/7, 13/14/15, 21/22/23 of the type-B layout). -/
theorem C7_color_chase_render (s : LightEffect) (hstd : StdLayout s.light_configs) :
    (s.color_chase.time_counter = s.time_counter + 2 ∧
    (∀ i cfg, s.light_configs[i]? = some cfg → 8 * i + 8 ≤ 512 →
      s.color_chase.dmx_data (role_channel cfg .red) =
        (clamp255 (hsv_to_rgb (chase_phase s.time_counter i s.light_configs.length : Int) 1
          ((s.brightness : ℚ) / 255)).1).toNat ∧
      s.color_chase.dmx_data (role_channel cfg .green) =
        (clamp255 (hsv_to_rgb (chase_phase s.time_counter i s.light_configs.length : Int) 1
          ((s.brightness : ℚ) / 255)).2.1).toNat ∧
      s.color_chase.dmx_data (role_channel cfg .blue) =
        (clamp255 (hsv_to_rgb (chase_phase s.time_counter i s.light_configs.length : Int) 1
          ((s.brightness : ℚ) / 255)).2.2).toNat ∧
      s.color_chase.dmx_data (role_channel cfg .white) = 0)) ∧
    chaseState.color_chase.dmx_data 5 = 255 ∧
    chaseState.color_chase.dmx_data 6 = 0 ∧
    chaseState.color_chase.dmx_data 7 = 0 ∧
    chaseState.color_chase.dmx_data 13 = 0 ∧
    chaseState.color_chase.dmx_data 14 = 255 ∧
    chaseState.color_chase.dmx_data 15 = 0 ∧
    chaseState.color_chase.dmx_data 21 = 0 ∧
    chaseState.color_chase.dmx_data 22 = 0 ∧
    chaseState.color_chase.dmx_data 23 = 255 := by
  have hstd3 : StdLayout chaseState.light_configs := update_light_configs_std [] 3
  have Hc := (color_chase_channels chaseState hstd3).2
  have h0 := Hc 0 { type := LightType.B, address := 1 } (by decide) (by decide)
  have h1 := Hc 1 { type := LightType.B, address := 9 } (by decide) (by decide)
  have h2 := Hc 2 { type := LightType.B, address := 17 } (by decide) (by decide)
  have e0 : (chase_phase chaseState.time_counter 0 chaseState.light_configs.length : Int) = 0 := by
    decide
  have e1 : (chase_phase chaseState.time_counter 1 chaseState.light_configs.length : Int) = 120 := by
    decide
  have e2 : (chase_phase chaseState.time_counter 2 chaseState.light_configs.length : Int) = 240 := by
    decide
  have ebr : ((chaseState.brightness : ℚ) / 255) = 1 := by
    show ((255 : Int) : ℚ) / 255 = 1
    norm_num
  rw [e0, ebr, hsv_red] at h0
  rw [e1, ebr, hsv_green] at h1
  rw [e2, ebr, hsv_blue] at h2
  have c0r : role_channel { type := LightType.B, address := 1 } .red = 5 := by decide
  have c0g : role_channel { type := LightType.B, address := 1 } .green = 6 := by decide
  have c0b : role_channel { type := LightType.B, address := 1 } .blue = 7 := by decide
  have c1r : role_channel { type := LightType.B, address := 9 } .red = 13 := by decide
  have c1g : role_channel { type := LightType.B, address := 9 } .green = 14 := by decide
  have c1b : role_channel { type := LightType.B, address := 9 } .blue = 15 := by decide
  have c2r : role_channel { type := LightType.B, address := 17 } .red = 21 := by decide
  have c2g : role_channel { type := LightType.B, address := 17 } .green = 22 := by decide
  have c2b : role_channel { type := LightType.B, address := 17 } .blue = 23 := by decide
  rw [c0r, c0g, c0b] at h0
  rw [c1r, c1g, c1b] at h1
  rw [c2r, c2g, c2b] at h2
  refine ⟨color_chase_channels s hstd, ?_, ?_, ?_, ?_, ?_, ?_, ?_, ?_, ?_⟩
  · exact h0.1.trans (by decide)
  · exact h0.2.1.trans (by decide)
  · exact h0.2.2.1.trans (by decide)
  · exact h1.1.trans (by decide)
  · exact h1.2.1.trans (by decide)
  · exact h1.2.2.1.trans (by decide)
  · exact h2.1.trans (by decide)
  · exact h2.2.1.trans (by decide)
  · exact h2.2.2.1.trans (by decide)

/-- Witness for C7 at the concrete three-fixture state with brightness 255. -/
theorem C7_color_chase_render_witness :
    chaseState.color_chase.time_counter = chaseState.time_counter + 2 ∧
    chaseState.color_chase.dmx_data
      (role_channel { type := LightType.B, address := 1 } .white) = 0 ∧
    chaseState.color_chase.dmx_data 5 = 255 :=
  ⟨(C7_color_chase_render chaseState (update_light_configs_std [] 3)).1.1,
   ((C7_color_chase_render chaseState (update_light_configs_std [] 3)).1.2 0
     { type := LightType.B, address := 1 } (by decide) (by decide)).2.2.2,
   (C7_color_chase_render chaseState (update_light_configs_std [] 3)).2.1⟩

/-- C7 counterexample to the claim's hue formula: at t = 0, k = 7, fixture 1
the code's hue is `1 * (360 // 7) = 51`, not the claim's exact
`1 * 360 / 7 = 360/7`; observably, fixture 1's green channel (channel 14)
renders 216 where the spec formula would give 218. -/
theorem C7_counterexample :
    (chase_phase 0 1 7 : ℚ) ≠ spec_chase_hue 0 1 7 ∧
    chaseState7.color_chase.dmx_data 14 = 216 ∧
    (spec_hsv_to_rgb (spec_chase_hue 0 1 7) 1 1).2.1 = 218 ∧
    (216 : Nat) ≠ 218 := by
  refine ⟨?_, ?_, ?_, by decide⟩
  · norm_num [chase_phase, spec_chase_hue, qmod]
  · have hstd7 : StdLayout chaseState7.light_configs :=
      update_light_configs_std (update_light_configs [] 3) 7
    have h1 := (color_chase_channels chaseState7 hstd7).2 1
      { type := LightType.B, address := 9 } (by decide) (by decide)
    have e1 : (chase_phase chaseState7.time_counter 1 chaseState7.light_configs.length : Int) =
        51 := by decide
    have ebr : ((chaseState7.brightness : ℚ) / 255) = 1 := by
      show ((255 : Int) : ℚ) / 255 = 1
      norm_num
    have cg : role_channel { type := LightType.B, address := 9 } .green = 14 := by decide
    rw [e1, ebr, hsv_51, cg] at h1
    exact h1.2.1.trans (by decide)
  · norm_num [spec_hsv_to_rgb, spec_chase_hue, qmod, pyInt, abs_of_nonneg, abs_of_nonpos]

end DMX
